import Mathlib

set_option maxHeartbeats 1000000

/- Verification of the alert/reminder core of the SAPPHIRES filter dashboard
   (`filterdashmanual.py`).

   The embedding models the four SQLite tables the orchestrator touches
   (`filter_state`, `user_control`, `processed_events`, `reminders`) as Lean
   lists kept in rowid (insertion) order, the store helper functions
   (`get_last_filter_state`, `get_due_reminder`, `is_event_processed`,
   `record_event_as_processed`, `add_reminder`, `remove_reminder`,
   `update_user_control_decision`) as pure functions over that state, and the
   Dash callback `handle_filter_state_event` as a function from the trigger,
   the persisted UI flags and the store state to the callback's output tuple
   and the mutated store state.

   Timestamps inside the store model are abstract minute counts (`Nat`); the
   program's fixed-format `YYYY-MM-DD HH:MM:SS` strings and their
   lexicographic comparison are modelled separately (`DateTime`, `fmtDT`,
   `lexLe`) and proved order-faithful, which justifies the numeric
   comparison used in the store model.

   Each helper in the Python source catches sqlite errors and returns a
   documented default; a read helper therefore takes an explicit `fail` flag
   selecting its error branch.  The callback's own catch-all `except` is
   modelled by the `raises` flag of `handle_filter_state_event`. -/

/-- A row of the `reminders` table: `(reminder_id, event_id, reminder_time,
reminder_type)`, with `reminder_time` in abstract minutes. -/
structure ReminderRow where
  reminder_id : Nat
  event_id : Nat
  reminder_time : Nat
  reminder_type : String
deriving DecidableEq, Repr

/-- A row of the `processed_events` table: `(event_id, action,
processed_timestamp)`. -/
structure ProcessedRow where
  event_id : Nat
  action : String
  processed_timestamp : Nat
deriving DecidableEq, Repr

/-- The durable store: the four tables the orchestrator reads or writes.
Rows are kept in rowid (insertion) order; `next_reminder_id` models the
AUTOINCREMENT counter of the `reminders` table. -/
structure DB where
  filter_state : List (Nat × String)
  user_control : List (Nat × String)
  processed_events : List ProcessedRow
  reminders : List ReminderRow
  next_reminder_id : Nat
deriving DecidableEq, Repr

/-- Python truthiness of an optional integer: `None` and `0` are falsy. -/
def truthy : Option Nat → Bool
  | none => false
  | some n => decide (n ≠ 0)

/-- `get_last_filter_state()`: the `(id, filter_state)` of the newest
`filter_state` row; `(None, "OFF")` when the table is empty or the read
fails. -/
def get_last_filter_state (fail : Bool) (db : DB) : Option Nat × String :=
  if fail then (none, "OFF")
  else
    match db.filter_state.getLast? with
    | none => (none, "OFF")
    | some (i, s) => (some i, s)

/-- `get_due_reminder()`: `(event_id, reminder_id)` of the first `reminders`
row with `reminder_time <= now`, else `(None, None)`; also `(None, None)` on
a failed read. -/
def get_due_reminder (fail : Bool) (db : DB) (now : Nat) : Option Nat × Option Nat :=
  if fail then (none, none)
  else
    match db.reminders.find? (fun r => decide (r.reminder_time ≤ now)) with
    | none => (none, none)
    | some r => (some r.event_id, some r.reminder_id)

/-- `is_event_processed(event_id)`: true iff some `processed_events` row has
this `event_id`; `False` on a failed read. -/
def is_event_processed (fail : Bool) (db : DB) (event_id : Nat) : Bool :=
  if fail then false
  else db.processed_events.any (fun p => decide (p.event_id = event_id))

/-- `record_event_as_processed(event_id, action)`: append one
`processed_events` row stamped with the current time. -/
def record_event_as_processed (db : DB) (event_id : Nat) (action : String) (now : Nat) : DB :=
  { db with processed_events := db.processed_events ++ [⟨event_id, action, now⟩] }

/-- `add_reminder(event_id, delay_minutes, reminder_type)`: insert one
`reminders` row due `delay_minutes` from now. -/
def add_reminder (db : DB) (event_id delay_minutes : Nat) (reminder_type : String)
    (now : Nat) : DB :=
  { db with
      reminders :=
        db.reminders ++ [⟨db.next_reminder_id, event_id, now + delay_minutes, reminder_type⟩],
      next_reminder_id := db.next_reminder_id + 1 }

/-- `remove_reminder(reminder_id)`: delete the `reminders` row with this id. -/
def remove_reminder (db : DB) (reminder_id : Nat) : DB :=
  { db with reminders := db.reminders.filter (fun r => decide (r.reminder_id ≠ reminder_id)) }

/-- `update_user_control_decision(state)`: append one `user_control` row. -/
def update_user_control_decision (db : DB) (state : String) (now : Nat) : DB :=
  { db with user_control := db.user_control ++ [(now, state)] }

/-- The component id found in `callback_context.triggered`: the interval tick
or one of the seven wired buttons. -/
inductive Trigger where
  | interval_component
  | enable_fan_filterstate
  | keep_fan_off_filterstate
  | remind_me_filterstate
  | remind_me_hour_filterstate
  | disclaimer_yes
  | disclaimer_no
  | caution_close
deriving DecidableEq, Repr

/-- Which of the three read helpers hit their sqlite-error branch during this
invocation (each helper catches its own errors and returns its default). -/
structure Fails where
  filter_fail : Bool
  reminder_fail : Bool
  processed_fail : Bool
deriving DecidableEq, Repr

/-- All reads succeed. -/
def noFails : Fails := ⟨false, false, false⟩

/-- All reads fail (sustained store outage). -/
def allFails : Fails := ⟨true, true, true⟩

/-- The callback's working variables after a block of
`handle_filter_state_event` has run: the three dialog flags, the alert flag,
the status line and the store state. -/
structure PhaseState where
  modal_open : Bool
  disclaimer_open : Bool
  caution_open : Bool
  updated_alert_shown : Bool
  status_message : String
  db : DB
deriving DecidableEq, Repr

/-- The first `if`/`elif` chain of `handle_filter_state_event`: the due-
reminder check (any trigger) and the interval-tick auto-prompt check. -/
def reminderTickPhase (trigger : Trigger) (fails : Fails)
    (alert_shown modal_open_state disclaimer_open_state caution_open_state : Bool)
    (db : DB) (now : Nat) : PhaseState :=
  if truthy (get_due_reminder fails.reminder_fail db now).1
      && decide ((get_due_reminder fails.reminder_fail db now).1
          = (get_last_filter_state fails.filter_fail db).1)
      && decide ((get_last_filter_state fails.filter_fail db).2 = "ON") then
    ⟨true, false, false, true, "Reminder due. Showing modal.",
      remove_reminder db ((get_due_reminder fails.reminder_fail db now).2.getD 0)⟩
  else if decide (trigger = Trigger.interval_component)
      && decide ((get_last_filter_state fails.filter_fail db).2 = "ON")
      && truthy (get_last_filter_state fails.filter_fail db).1 then
    if ! is_event_processed fails.processed_fail db
        ((get_last_filter_state fails.filter_fail db).1.getD 0) then
      ⟨true, false, false, true,
        "Filter ON detected. Event "
          ++ toString ((get_last_filter_state fails.filter_fail db).1.getD 0)
          ++ ". User attention required.",
        record_event_as_processed db
          ((get_last_filter_state fails.filter_fail db).1.getD 0) "SHOWING_MODAL" now⟩
    else
      ⟨modal_open_state, disclaimer_open_state, caution_open_state, alert_shown,
        "Monitoring filter state...", db⟩
  else
    ⟨modal_open_state, disclaimer_open_state, caution_open_state, alert_shown,
      "Monitoring filter state...", db⟩

/-- The second `if`/`elif` chain of `handle_filter_state_event`: the seven
button branches (the interval trigger matches none of them). -/
def clickPhase (trigger : Trigger) (p : PhaseState) (last_event_id : Option Nat)
    (now : Nat) : PhaseState :=
  match trigger with
  | Trigger.enable_fan_filterstate =>
      let db1 := update_user_control_decision p.db "ON" now
      let db2 := if truthy last_event_id then
          record_event_as_processed db1 (last_event_id.getD 0) "ON" now
        else db1
      ⟨false, false, false, p.updated_alert_shown, "Fan enabled by user choice.", db2⟩
  | Trigger.keep_fan_off_filterstate =>
      ⟨false, true, false, p.updated_alert_shown,
        "User chose to keep fan off, showing disclaimer.", p.db⟩
  | Trigger.remind_me_filterstate =>
      let db1 := if truthy last_event_id then
          record_event_as_processed
            (add_reminder p.db (last_event_id.getD 0) 20 "20 minutes" now)
            (last_event_id.getD 0) "REMIND_20" now
        else p.db
      ⟨false, false, false, p.updated_alert_shown, "Reminder set for 20 minutes.", db1⟩
  | Trigger.remind_me_hour_filterstate =>
      let db1 := if truthy last_event_id then
          record_event_as_processed
            (add_reminder p.db (last_event_id.getD 0) 60 "1 hour" now)
            (last_event_id.getD 0) "REMIND_60" now
        else p.db
      ⟨false, false, false, p.updated_alert_shown, "Reminder set for 1 hour.", db1⟩
  | Trigger.disclaimer_yes =>
      let db1 := update_user_control_decision p.db "OFF" now
      let db2 := if truthy last_event_id then
          record_event_as_processed db1 (last_event_id.getD 0) "OFF" now
        else db1
      ⟨false, false, true, p.updated_alert_shown,
        "User insisted on keeping fan off, showing caution.", db2⟩
  | Trigger.disclaimer_no =>
      let db1 := update_user_control_decision p.db "ON" now
      let db2 := if truthy last_event_id then
          record_event_as_processed db1 (last_event_id.getD 0) "ON" now
        else db1
      ⟨false, false, false, p.updated_alert_shown,
        "User changed mind at disclaimer, fan enabled.", db2⟩
  | Trigger.caution_close =>
      ⟨false, false, false, p.updated_alert_shown,
        "Caution modal closed, user aware fan is off.", p.db⟩
  | Trigger.interval_component => p

/-- The callback's eight outputs (the three `is_open` props, the alert-shown
store, the status line, the three flag stores), plus the mutated store state.
`modal_is_open`/`modal_store` are the same value written to two outputs, as
in the source. -/
structure CallbackResult where
  modal_is_open : Bool
  alert_data : Bool
  relay_status : String
  disclaimer_is_open : Bool
  caution_is_open : Bool
  modal_store : Bool
  disclaimer_store : Bool
  caution_store : Bool
  db : DB
deriving DecidableEq, Repr

/-- Package the final working variables into the callback's return tuple. -/
def mkCallbackResult (p : PhaseState) : CallbackResult :=
  ⟨p.modal_open, p.updated_alert_shown, p.status_message, p.disclaimer_open, p.caution_open,
    p.modal_open, p.disclaimer_open, p.caution_open, p.db⟩

/-- The `try` body of `handle_filter_state_event`: the reminder/tick chain,
then the button chain, then the return tuple. -/
def handleCore (trigger : Trigger) (fails : Fails)
    (alert_shown modal_open_state disclaimer_open_state caution_open_state : Bool)
    (db : DB) (now : Nat) : CallbackResult :=
  let p1 := reminderTickPhase trigger fails alert_shown modal_open_state
    disclaimer_open_state caution_open_state db now
  let p2 := clickPhase trigger p1 (get_last_filter_state fails.filter_fail db).1 now
  mkCallbackResult p2

/-- `handle_filter_state_event`: the whole callback.  `raises` models an
unhandled exception escaping the `try` body, in which case the `except`
branch returns the prior stored flags unchanged with an error status line. -/
def handle_filter_state_event (raises : Bool) (trigger : Trigger) (fails : Fails)
    (alert_shown modal_open_state disclaimer_open_state caution_open_state : Bool)
    (db : DB) (now : Nat) : CallbackResult :=
  if raises then
    ⟨modal_open_state, alert_shown, "Error encountered in callback. Check logs.",
      disclaimer_open_state, caution_open_state, modal_open_state, disclaimer_open_state,
      caution_open_state, db⟩
  else
    handleCore trigger fails alert_shown modal_open_state disclaimer_open_state
      caution_open_state db now

/-- One orchestrator invocation as seen from outside: whether it raised,
its trigger, which reads failed, and the wall-clock time. -/
structure Step where
  raises : Bool
  trigger : Trigger
  fails : Fails
  now : Nat
deriving DecidableEq, Repr

/-- The durable session state carried between invocations: the four
`dcc.Store` values and the database. -/
structure SessionState where
  alert : Bool
  modal : Bool
  disclaimer : Bool
  caution : Bool
  db : DB
deriving DecidableEq, Repr

/-- Run one invocation and persist its stored outputs. -/
def stepRun (s : SessionState) (st : Step) : SessionState :=
  let r := handle_filter_state_event st.raises st.trigger st.fails s.alert s.modal
    s.disclaimer s.caution s.db st.now
  ⟨r.alert_data, r.modal_store, r.disclaimer_store, r.caution_store, r.db⟩

/-- Run a sequence of invocations. -/
def runTrace (s : SessionState) : List Step → SessionState
  | [] => s
  | st :: rest => runTrace (stepRun s st) rest

/-- At most one of the three dialog flags is set. -/
def atMostOne (m d c : Bool) : Prop := m.toNat + d.toNat + c.toNat ≤ 1

/- Fixed-format timestamps.  The source renders every timestamp with
`strftime("%Y-%m-%d %H:%M:%S")` and the due-reminder query compares the
stored text against the current time with SQLite's default BINARY (byte-wise
lexicographic) TEXT comparison.  `DateTime`/`fmtDT`/`lexLe` model that
representation and `dtLe` the intended chronological order. -/

/-- A wall-clock datetime, field by field. -/
structure DateTime where
  year : Nat
  month : Nat
  day : Nat
  hour : Nat
  minute : Nat
  second : Nat
deriving DecidableEq, Repr

/-- Field ranges under which `strftime("%Y-%m-%d %H:%M:%S")` is fixed-width
(four-digit year, zero-padded two-digit fields). -/
def dtValid (t : DateTime) : Prop :=
  1000 ≤ t.year ∧ t.year ≤ 9999 ∧ 1 ≤ t.month ∧ t.month ≤ 12 ∧ 1 ≤ t.day ∧ t.day ≤ 31 ∧
    t.hour ≤ 23 ∧ t.minute ≤ 59 ∧ t.second ≤ 59

instance (t : DateTime) : Decidable (dtValid t) := by
  unfold dtValid; infer_instance

/-- Chronological order on datetimes: lexicographic on the six fields. -/
def dtLe (a b : DateTime) : Bool :=
  if a.year = b.year then
    if a.month = b.month then
      if a.day = b.day then
        if a.hour = b.hour then
          if a.minute = b.minute then decide (a.second ≤ b.second)
          else decide (a.minute < b.minute)
        else decide (a.hour < b.hour)
      else decide (a.day < b.day)
    else decide (a.month < b.month)
  else decide (a.year < b.year)

/-- The ASCII digit character for `n < 10`. -/
def digit (n : Nat) : Char := Char.ofNat (48 + n)

/-- Zero-padded two-digit decimal rendering (for `n ≤ 99`). -/
def pad2 (n : Nat) : List Char := [digit (n / 10), digit (n % 10)]

/-- Zero-padded four-digit decimal rendering (for `n ≤ 9999`). -/
def pad4 (n : Nat) : List Char := pad2 (n / 100) ++ pad2 (n % 100)

/-- `strftime("%Y-%m-%d %H:%M:%S")` as a character list. -/
def fmtDT (t : DateTime) : List Char :=
  pad4 t.year ++ '-' :: (pad2 t.month ++ '-' :: (pad2 t.day ++ ' ' :: (pad2 t.hour ++
    ':' :: (pad2 t.minute ++ ':' :: pad2 t.second))))

/-- Byte-wise (codepoint) lexicographic `≤` on strings, SQLite's BINARY
collation restricted to ASCII text. -/
def lexLe : List Char → List Char → Bool
  | [], _ => true
  | _ :: _, [] => false
  | a :: as, b :: bs => if a = b then lexLe as bs else decide (a < b)

theorem lexLe_cons_same (c : Char) (r1 r2 : List Char) :
    lexLe (c :: r1) (c :: r2) = lexLe r1 r2 := by
  simp [lexLe]

/-- Comparing equal-length-prefixed concatenations: the prefix decides unless
the prefixes are equal. -/
theorem lexLe_append (a : List Char) : ∀ (a' b b' : List Char), a.length = a'.length →
    lexLe (a ++ b) (a' ++ b') = if a = a' then lexLe b b' else lexLe a a' := by
  induction a with
  | nil =>
      intro a' b b' h
      have ha : a' = [] := List.length_eq_zero.mp h.symm
      subst ha; simp [lexLe]
  | cons x xs ih =>
      intro a' b b' h
      cases a' with
      | nil => simp at h
      | cons y ys =>
          simp only [List.length_cons, Nat.succ.injEq] at h
          by_cases hxy : x = y
          · subst hxy
            have hih := ih ys b b' h
            by_cases hxs : xs = ys
            · subst hxs
              simp only [List.cons_append, lexLe_cons_same, hih, if_pos rfl]
            · have hne : (x :: xs) ≠ (x :: ys) := by simp [hxs]
              simp only [List.cons_append, lexLe_cons_same, if_neg hne]
              rw [hih, if_neg hxs]
          · have hne : (x :: xs) ≠ (y :: ys) := by simp [hxy]
            have l1 : lexLe ((x :: xs) ++ b) ((y :: ys) ++ b') = decide (x < y) := by
              simp only [List.cons_append, lexLe, if_neg hxy]
            have l2 : lexLe (x :: xs) (y :: ys) = decide (x < y) := by
              simp only [lexLe, if_neg hxy]
            rw [l1, if_neg hne, l2]

theorem digit_lt_iff : ∀ a, a < 10 → ∀ b, b < 10 → ((digit a < digit b) ↔ a < b) := by decide

theorem digit_inj : ∀ a, a < 10 → ∀ b, b < 10 → ((digit a = digit b) ↔ a = b) := by decide

theorem pad2_le_eq (m n : Nat) (hm : m < 100) (hn : n < 100) :
    lexLe (pad2 m) (pad2 n) = decide (m ≤ n) := by
  unfold pad2
  by_cases h1 : m / 10 = n / 10
  · have hd1 : digit (m / 10) = digit (n / 10) :=
      (digit_inj _ (by omega) _ (by omega)).mpr h1
    by_cases h2 : m % 10 = n % 10
    · have hd2 : digit (m % 10) = digit (n % 10) :=
        (digit_inj _ (by omega) _ (by omega)).mpr h2
      have hmn : m = n := by omega
      subst hmn
      simp [lexLe]
    · have hd2 : digit (m % 10) ≠ digit (n % 10) := fun hc =>
        h2 ((digit_inj _ (by omega) _ (by omega)).mp hc)
      simp only [lexLe, if_pos hd1, if_neg hd2]
      rw [show (decide (digit (m % 10) < digit (n % 10)) = decide (m % 10 < n % 10)) from
        decide_eq_decide.mpr (digit_lt_iff _ (by omega) _ (by omega))]
      exact decide_eq_decide.mpr (by omega)
  · have hd1 : digit (m / 10) ≠ digit (n / 10) := fun hc =>
      h1 ((digit_inj _ (by omega) _ (by omega)).mp hc)
    simp only [lexLe, if_neg hd1]
    rw [show (decide (digit (m / 10) < digit (n / 10)) = decide (m / 10 < n / 10)) from
      decide_eq_decide.mpr (digit_lt_iff _ (by omega) _ (by omega))]
    exact decide_eq_decide.mpr (by omega)

theorem pad2_inj (m n : Nat) (hm : m < 100) (hn : n < 100) : pad2 m = pad2 n ↔ m = n := by
  constructor
  · intro h
    unfold pad2 at h
    simp only [List.cons.injEq, and_true] at h
    obtain ⟨h1, h2⟩ := h
    have e1 := (digit_inj _ (by omega) _ (by omega)).mp h1
    have e2 := (digit_inj _ (by omega) _ (by omega)).mp h2
    omega
  · intro h; subst h; rfl

theorem pad2_length (n : Nat) : (pad2 n).length = 2 := rfl

/-- Compare two `pad2` blocks sitting in front of arbitrary tails. -/
theorem lexLe_pad2_append (m n : Nat) (hm : m ≤ 99) (hn : n ≤ 99) (r1 r2 : List Char) :
    lexLe (pad2 m ++ r1) (pad2 n ++ r2) = if m = n then lexLe r1 r2 else decide (m < n) := by
  rw [lexLe_append (pad2 m) (pad2 n) r1 r2 (by rw [pad2_length, pad2_length])]
  by_cases hmn : m = n
  · subst hmn; simp
  · have h1 : pad2 m ≠ pad2 n := fun hc =>
      hmn ((pad2_inj m n (by omega) (by omega)).mp hc)
    rw [if_neg h1, if_neg hmn, pad2_le_eq m n (by omega) (by omega)]
    exact decide_eq_decide.mpr (by omega)

theorem pad4_length (n : Nat) : (pad4 n).length = 4 := rfl

/-- Compare two `pad4` blocks sitting in front of arbitrary tails. -/
theorem lexLe_pad4_append (m n : Nat) (hm : m ≤ 9999) (hn : n ≤ 9999) (r1 r2 : List Char) :
    lexLe (pad4 m ++ r1) (pad4 n ++ r2) = if m = n then lexLe r1 r2 else decide (m < n) := by
  unfold pad4
  rw [List.append_assoc, List.append_assoc,
    lexLe_pad2_append (m / 100) (n / 100) (by omega) (by omega),
    lexLe_pad2_append (m % 100) (n % 100) (by omega) (by omega)]
  by_cases h1 : m / 100 = n / 100
  · rw [if_pos h1]
    by_cases h2 : m % 100 = n % 100
    · rw [if_pos h2, if_pos (by omega)]
    · rw [if_neg h2, if_neg (show ¬ m = n by omega)]
      exact decide_eq_decide.mpr (by omega)
  · rw [if_neg h1, if_neg (show ¬ m = n by omega)]
    exact decide_eq_decide.mpr (by omega)

/-- For fixed-format datetimes, string comparison computes chronological
comparison. -/
theorem lexLe_fmtDT (t1 t2 : DateTime) (h1 : dtValid t1) (h2 : dtValid t2) :
    lexLe (fmtDT t1) (fmtDT t2) = dtLe t1 t2 := by
  obtain ⟨hy1a, hy1b, hmo1a, hmo1b, hd1a, hd1b, hh1, hmi1, hs1⟩ := h1
  obtain ⟨hy2a, hy2b, hmo2a, hmo2b, hd2a, hd2b, hh2, hmi2, hs2⟩ := h2
  unfold fmtDT dtLe
  rw [lexLe_pad4_append t1.year t2.year (by omega) (by omega)]
  by_cases hy : t1.year = t2.year
  · rw [if_pos hy, if_pos hy, lexLe_cons_same,
      lexLe_pad2_append t1.month t2.month (by omega) (by omega)]
    by_cases hmo : t1.month = t2.month
    · rw [if_pos hmo, if_pos hmo, lexLe_cons_same,
        lexLe_pad2_append t1.day t2.day (by omega) (by omega)]
      by_cases hd : t1.day = t2.day
      · rw [if_pos hd, if_pos hd, lexLe_cons_same,
          lexLe_pad2_append t1.hour t2.hour (by omega) (by omega)]
        by_cases hh : t1.hour = t2.hour
        · rw [if_pos hh, if_pos hh, lexLe_cons_same,
            lexLe_pad2_append t1.minute t2.minute (by omega) (by omega)]
          by_cases hmi : t1.minute = t2.minute
          · rw [if_pos hmi, if_pos hmi, lexLe_cons_same,
              pad2_le_eq t1.second t2.second (by omega) (by omega)]
          · rw [if_neg hmi, if_neg hmi]
        · rw [if_neg hh, if_neg hh]
      · rw [if_neg hd, if_neg hd]
    · rw [if_neg hmo, if_neg hmo]
  · rw [if_neg hy, if_neg hy]

/-- The due-reminder `WHERE reminder_time <= now` filter, evaluated on the
stored strings, selects exactly the chronologically due entries. -/
theorem find_due_by_string (now : DateTime) (hnow : dtValid now) :
    ∀ rs : List DateTime, (∀ r ∈ rs, dtValid r) →
      rs.find? (fun r => lexLe (fmtDT r) (fmtDT now)) = rs.find? (fun r => dtLe r now) := by
  intro rs
  induction rs with
  | nil => intro _; rfl
  | cons r rest ih =>
      intro hv
      have hr : dtValid r := hv r (List.mem_cons_self r rest)
      rw [List.find?, List.find?, lexLe_fmtDT r now hr hnow]
      cases dtLe r now with
      | true => rfl
      | false => exact ih (fun x hx => hv x (List.mem_cons_of_mem r hx))

/- Helper lemmas about the callback's phases and the store mutators. -/

theorem noFails_filter_fail : noFails.filter_fail = false := rfl

theorem noFails_reminder_fail : noFails.reminder_fail = false := rfl

theorem noFails_processed_fail : noFails.processed_fail = false := rfl

theorem handleCore_interval (fails : Fails) (alert m d c : Bool) (db : DB) (now : Nat) :
    handleCore Trigger.interval_component fails alert m d c db now =
      mkCallbackResult (reminderTickPhase Trigger.interval_component fails alert m d c db now) :=
  rfl

/-- The first phase has exactly three outcomes: the reminder branch fired,
the tick auto-prompt branch fired (only on the interval trigger, only for an
unprocessed event), or nothing changed. -/
theorem reminderTickPhase_cases (trigger : Trigger) (fails : Fails) (a m d c : Bool)
    (db : DB) (now : Nat) :
    reminderTickPhase trigger fails a m d c db now =
        ⟨true, false, false, true, "Reminder due. Showing modal.",
          remove_reminder db ((get_due_reminder fails.reminder_fail db now).2.getD 0)⟩
    ∨ (reminderTickPhase trigger fails a m d c db now =
        ⟨true, false, false, true,
          "Filter ON detected. Event "
            ++ toString ((get_last_filter_state fails.filter_fail db).1.getD 0)
            ++ ". User attention required.",
          record_event_as_processed db
            ((get_last_filter_state fails.filter_fail db).1.getD 0) "SHOWING_MODAL" now⟩
        ∧ trigger = Trigger.interval_component
        ∧ is_event_processed fails.processed_fail db
            ((get_last_filter_state fails.filter_fail db).1.getD 0) = false)
    ∨ reminderTickPhase trigger fails a m d c db now =
        ⟨m, d, c, a, "Monitoring filter state...", db⟩ := by
  unfold reminderTickPhase
  split
  · exact Or.inl rfl
  · split
    · rename_i hg
      split
      · rename_i hp
        refine Or.inr (Or.inl ⟨rfl, ?_, ?_⟩)
        · simp only [Bool.and_eq_true, decide_eq_true_eq] at hg
          exact hg.1.1
        · simpa using hp
      · exact Or.inr (Or.inr rfl)
    · exact Or.inr (Or.inr rfl)

/-- On a non-tick trigger the first phase never touches `processed_events`,
`user_control`, `filter_state` or the reminder counter (it can only delete a
due reminder). -/
theorem reminderTickPhase_nontick_db (trigger : Trigger)
    (h : trigger ≠ Trigger.interval_component) (fails : Fails) (a m d c : Bool)
    (db : DB) (now : Nat) :
    (reminderTickPhase trigger fails a m d c db now).db.processed_events = db.processed_events
    ∧ (reminderTickPhase trigger fails a m d c db now).db.user_control = db.user_control
    ∧ (reminderTickPhase trigger fails a m d c db now).db.filter_state = db.filter_state
    ∧ (reminderTickPhase trigger fails a m d c db now).db.next_reminder_id
        = db.next_reminder_id := by
  rcases reminderTickPhase_cases trigger fails a m d c db now with hc | ⟨_, htr, _⟩ | hc
  · rw [hc]; exact ⟨rfl, rfl, rfl, rfl⟩
  · exact absurd htr h
  · rw [hc]; exact ⟨rfl, rfl, rfl, rfl⟩

/-- With no due reminder and a non-tick trigger, the first phase is the
identity on all working variables. -/
theorem reminderTickPhase_idle_nontick (trigger : Trigger)
    (h : trigger ≠ Trigger.interval_component) (fails : Fails) (a m d c : Bool)
    (db : DB) (now : Nat)
    (hnr : get_due_reminder fails.reminder_fail db now = (none, none)) :
    reminderTickPhase trigger fails a m d c db now =
      ⟨m, d, c, a, "Monitoring filter state...", db⟩ := by
  unfold reminderTickPhase
  simp [hnr, truthy, h]

/- ------------------------------------------------------------------ -/
/- Claim theorems.                                                     -/
/- ------------------------------------------------------------------ -/

/-- C8: an invocation of the action-handling cycle that raises an unhandled
exception returns the prior persisted UI state unchanged (same main-modal,
alert-shown, disclaimer and caution flags as were passed in), with only an
error status line. -/
theorem c8_exception_returns_prior_state (trigger : Trigger) (fails : Fails)
    (alert m d c : Bool) (db : DB) (now : Nat) :
    handle_filter_state_event true trigger fails alert m d c db now =
      ⟨m, alert, "Error encountered in callback. Check logs.", d, c, m, d, c, db⟩ :=
  rfl

/-- C9: for datetimes with four-digit years (and in-range fields), the
chronological order agrees with lexicographic comparison of the fixed-format
`YYYY-MM-DD HH:MM:SS` renderings; consequently the due-reminder query's
string filter `reminder_time <= now` selects exactly the reminders whose due
datetime is at or before now. -/
theorem c9_lex_order_faithful :
    (∀ t1 t2 : DateTime, dtValid t1 → dtValid t2 →
      (dtLe t1 t2 = true ↔ lexLe (fmtDT t1) (fmtDT t2) = true))
    ∧ (∀ (now : DateTime) (rs : List DateTime), dtValid now → (∀ r ∈ rs, dtValid r) →
        rs.find? (fun r => lexLe (fmtDT r) (fmtDT now))
          = rs.find? (fun r => dtLe r now)) := by
  constructor
  · intro t1 t2 h1 h2
    rw [lexLe_fmtDT t1 t2 h1 h2]
  · intro now rs hn hv
    exact find_due_by_string now hn rs hv

/-- Witness for C9 at concrete datetimes one second apart. -/
theorem c9_lex_order_faithful_witness :
    dtValid ⟨2024, 3, 5, 14, 30, 59⟩ ∧ dtValid ⟨2024, 3, 5, 14, 31, 0⟩ ∧
    (dtLe ⟨2024, 3, 5, 14, 30, 59⟩ ⟨2024, 3, 5, 14, 31, 0⟩ = true ↔
      lexLe (fmtDT ⟨2024, 3, 5, 14, 30, 59⟩) (fmtDT ⟨2024, 3, 5, 14, 31, 0⟩) = true) :=
  ⟨by decide, by decide,
    c9_lex_order_faithful.1 ⟨2024, 3, 5, 14, 30, 59⟩ ⟨2024, 3, 5, 14, 31, 0⟩
      (by decide) (by decide)⟩

/-- A store with a reminder for event 5 due at time 0 while the latest
condition is `(5, "OFF")`: the reminder is due, its event matches, but the
condition has returned to OFF. -/
def dbC1 : DB := ⟨[(5, "OFF")], [], [], [⟨1, 5, 0, "20 minutes"⟩], 2⟩

/-- C1: the claim says a due reminder is deleted in both branches, in
particular when the latest condition state is OFF.  Evaluating the callback
at `dbC1` (tick at time 10, reminder due since time 0, condition OFF) shows
the queue is returned unchanged: the due reminder is left to be returned by
`get_due_reminder` on every later invocation, because `remove_reminder` is
called only inside the `state == "ON"` branch. -/
theorem c1_due_reminder_kept_when_condition_off :
    get_due_reminder false dbC1 10 = (some 5, some 1)
    ∧ (get_last_filter_state false dbC1).2 = "OFF"
    ∧ (handleCore Trigger.interval_component noFails false false false false dbC1 10).db
        = dbC1
    ∧ get_due_reminder false
        (handleCore Trigger.interval_component noFails false false false false dbC1 10).db 11
        = (some 5, some 1) := by
  refine ⟨rfl, rfl, ?_, ?_⟩ <;> decide

/-- A store where event 5 is ON and already has a `SHOWING_MODAL` row. -/
def dbC2 : DB := ⟨[(5, "ON")], [], [⟨5, "SHOWING_MODAL", 0⟩], [], 1⟩

/-- C2 counterexample: with the latest condition `(5, "ON")` already
processed, a failure of only the `processed_events` read degrades to
"not processed" and the tick re-opens the modal, while with correct data the
modal stays closed — a store failure that wrongly prompts. -/
theorem c2_processed_read_failure_wrongly_prompts :
    is_event_processed false dbC2 5 = true
    ∧ (handleCore Trigger.interval_component ⟨false, false, true⟩
        false false false false dbC2 1).modal_store = true
    ∧ (handleCore Trigger.interval_component noFails
        false false false false dbC2 1).modal_store = false := by
  refine ⟨rfl, ?_, ?_⟩ <;> decide

/-- C2 (amended): each failed read degrades to its documented default
(`(None, "OFF")`, `(None, None)`, `False`), an empty condition table reads as
OFF, the invocation always completes with a well-formed result, and when all
reads fail (sustained outage) a tick from IDLE stays in IDLE, writes nothing,
and the modal never opens if it was not already open.  (A failure of only the
processed-events read is NOT covered: it can wrongly re-prompt, see the
counterexample.) -/
theorem c2_store_failure_defaults :
    (∀ db : DB, get_last_filter_state true db = (none, "OFF"))
    ∧ (∀ (db : DB) (now : Nat), get_due_reminder true db now = (none, none))
    ∧ (∀ (db : DB) (e : Nat), is_event_processed true db e = false)
    ∧ (∀ (uc : List (Nat × String)) (pe : List ProcessedRow) (rs : List ReminderRow)
        (k : Nat), get_last_filter_state false ⟨[], uc, pe, rs, k⟩ = (none, "OFF"))
    ∧ (∀ (alert : Bool) (db : DB) (now : Nat),
        (handleCore Trigger.interval_component allFails alert false false false db now).modal_store
            = false
        ∧ (handleCore Trigger.interval_component allFails alert false false false db
            now).disclaimer_store = false
        ∧ (handleCore Trigger.interval_component allFails alert false false false db
            now).caution_store = false
        ∧ (handleCore Trigger.interval_component allFails alert false false false db now).db
            = db)
    ∧ (∀ (trigger : Trigger) (alert d c : Bool) (db : DB) (now : Nat),
        (handle_filter_state_event false trigger allFails alert false d c db now).modal_store
          = false) := by
  refine ⟨fun db => rfl, fun db now => rfl, fun db e => rfl, fun uc pe rs k => rfl,
    fun alert db now => ⟨rfl, rfl, rfl, rfl⟩, ?_⟩
  intro trigger alert d c db now
  cases trigger <;> rfl

/-- One invocation preserves "at most one dialog open". -/
theorem atMostOne_stepRun (s : SessionState) (st : Step)
    (h : atMostOne s.modal s.disclaimer s.caution) :
    atMostOne (stepRun s st).modal (stepRun s st).disclaimer (stepRun s st).caution := by
  obtain ⟨r, trigger, fails, now⟩ := st
  obtain ⟨a, m, d, c, db⟩ := s
  cases r with
  | true => simpa [stepRun, handle_filter_state_event] using h
  | false =>
      rcases reminderTickPhase_cases trigger fails a m d c db now with hc | ⟨hc, _, _⟩ | hc <;>
        cases trigger <;>
          simp_all [stepRun, handle_filter_state_event, handleCore, clickPhase,
            mkCallbackResult, atMostOne]

/-- C7: starting from the initial state (all dialog flags false), after any
sequence of invocations — any triggers, any raised exceptions, any read
failures, any store contents — at most one of the three dialog flags is
true, so the four conceptual states IDLE / PROMPTING / DISCLAIMING /
CAUTIONING are mutually exclusive at every reachable state. -/
theorem c7_dialogs_mutually_exclusive (db0 : DB) (steps : List Step) :
    atMostOne (runTrace ⟨false, false, false, false, db0⟩ steps).modal
      (runTrace ⟨false, false, false, false, db0⟩ steps).disclaimer
      (runTrace ⟨false, false, false, false, db0⟩ steps).caution := by
  have gen : ∀ (l : List Step) (s : SessionState), atMostOne s.modal s.disclaimer s.caution →
      atMostOne (runTrace s l).modal (runTrace s l).disclaimer (runTrace s l).caution := by
    intro l
    induction l with
    | nil => intro s h; exact h
    | cons st rest ih =>
        intro s h
        exact ih (stepRun s st) (atMostOne_stepRun s st h)
  exact gen steps ⟨false, false, false, false, db0⟩ (show atMostOne false false false by unfold atMostOne; decide)

/-- C4: on a scheduling tick in IDLE with no due reminder: when the latest
condition is `(e, "ON")` (nonzero autoincrement id) and `e` has no
ProcessedAction row, exactly one `(e, SHOWING_MODAL)` row is appended,
nothing else is written, and the machine moves to PROMPTING (modal open,
disclaimer and caution closed); when the latest state is OFF, or the event
is already processed and no reminder is due, the state stays IDLE and the
store is unchanged. -/
theorem c4_tick_auto_prompt (db : DB) (now : Nat) (alert : Bool) (e : Nat) :
    (get_last_filter_state false db = (some e, "ON") → e ≠ 0 →
      get_due_reminder false db now = (none, none) →
      is_event_processed false db e = false →
      (handleCore Trigger.interval_component noFails alert false false false db now).modal_store
          = true
      ∧ (handleCore Trigger.interval_component noFails alert false false false db
          now).disclaimer_store = false
      ∧ (handleCore Trigger.interval_component noFails alert false false false db
          now).caution_store = false
      ∧ (handleCore Trigger.interval_component noFails alert false false false db
          now).db.processed_events = db.processed_events ++ [⟨e, "SHOWING_MODAL", now⟩]
      ∧ (handleCore Trigger.interval_component noFails alert false false false db
          now).db.reminders = db.reminders
      ∧ (handleCore Trigger.interval_component noFails alert false false false db
          now).db.user_control = db.user_control)
    ∧ ((get_last_filter_state false db).2 = "OFF" →
      handleCore Trigger.interval_component noFails alert false false false db now
        = ⟨false, alert, "Monitoring filter state...", false, false, false, false, false, db⟩)
    ∧ (∀ s : String, get_last_filter_state false db = (some e, s) →
      is_event_processed false db e = true →
      get_due_reminder false db now = (none, none) →
      handleCore Trigger.interval_component noFails alert false false false db now
        = ⟨false, alert, "Monitoring filter state...", false, false, false, false, false, db⟩) := by
  refine ⟨?_, ?_, ?_⟩
  · intro hm he hnr hnp
    rw [handleCore_interval]
    unfold reminderTickPhase
    simp [noFails, hm, hnr, hnp, truthy, he, mkCallbackResult, record_event_as_processed]
  · intro hoff
    rw [handleCore_interval]
    unfold reminderTickPhase
    simp [noFails, hoff, mkCallbackResult]
  · intro s hs hp hnr
    rw [handleCore_interval]
    unfold reminderTickPhase
    simp [noFails, hs, hp, hnr, truthy, mkCallbackResult]

/-- Witness for C4 on the store `{filter_state = [(7, "ON")]}` with empty
ledger and queue, ticked at time 3. -/
theorem c4_tick_auto_prompt_witness :
    get_last_filter_state false ⟨[(7, "ON")], [], [], [], 1⟩ = (some 7, "ON")
    ∧ (7 : Nat) ≠ 0
    ∧ get_due_reminder false ⟨[(7, "ON")], [], [], [], 1⟩ 3 = (none, none)
    ∧ is_event_processed false ⟨[(7, "ON")], [], [], [], 1⟩ 7 = false
    ∧ (handleCore Trigger.interval_component noFails false false false false
        ⟨[(7, "ON")], [], [], [], 1⟩ 3).modal_store = true
    ∧ (handleCore Trigger.interval_component noFails false false false false
        ⟨[(7, "ON")], [], [], [], 1⟩ 3).db.processed_events
        = [⟨7, "SHOWING_MODAL", 3⟩] :=
  ⟨by decide, by decide, by decide, by decide,
    ((c4_tick_auto_prompt ⟨[(7, "ON")], [], [], [], 1⟩ 3 false 7).1
      (by decide) (by decide) (by decide) (by decide)).1,
    ((c4_tick_auto_prompt ⟨[(7, "ON")], [], [], [], 1⟩ 3 false 7).1
      (by decide) (by decide) (by decide) (by decide)).2.2.2.1⟩

/-- C5: for an event `e` prompted in PROMPTING (latest condition row
`(e, s)`, nonzero id): approve appends OperatorDecision(ON) and
ProcessedAction(e, ON) and returns to IDLE; decline writes nothing to the
ledger and moves to DISCLAIMING; disclaimer-confirm appends
OperatorDecision(OFF) and ProcessedAction(e, OFF) and moves to CAUTIONING;
disclaimer-cancel appends OperatorDecision(ON) and ProcessedAction(e, ON)
and returns to IDLE; caution-acknowledge writes nothing and returns to
IDLE. -/
theorem c5_decision_round_trip (db : DB) (now : Nat) (alert : Bool) (e : Nat) (s : String)
    (hfs : get_last_filter_state false db = (some e, s)) (he : e ≠ 0) :
    ((handleCore Trigger.enable_fan_filterstate noFails alert true false false db
        now).db.user_control = db.user_control ++ [(now, "ON")]
      ∧ (handleCore Trigger.enable_fan_filterstate noFails alert true false false db
          now).db.processed_events = db.processed_events ++ [⟨e, "ON", now⟩]
      ∧ (handleCore Trigger.enable_fan_filterstate noFails alert true false false db
          now).modal_store = false
      ∧ (handleCore Trigger.enable_fan_filterstate noFails alert true false false db
          now).disclaimer_store = false
      ∧ (handleCore Trigger.enable_fan_filterstate noFails alert true false false db
          now).caution_store = false)
    ∧ ((handleCore Trigger.keep_fan_off_filterstate noFails alert true false false db
        now).db.user_control = db.user_control
      ∧ (handleCore Trigger.keep_fan_off_filterstate noFails alert true false false db
          now).db.processed_events = db.processed_events
      ∧ (handleCore Trigger.keep_fan_off_filterstate noFails alert true false false db
          now).modal_store = false
      ∧ (handleCore Trigger.keep_fan_off_filterstate noFails alert true false false db
          now).disclaimer_store = true
      ∧ (handleCore Trigger.keep_fan_off_filterstate noFails alert true false false db
          now).caution_store = false)
    ∧ ((handleCore Trigger.disclaimer_yes noFails alert false true false db
        now).db.user_control = db.user_control ++ [(now, "OFF")]
      ∧ (handleCore Trigger.disclaimer_yes noFails alert false true false db
          now).db.processed_events = db.processed_events ++ [⟨e, "OFF", now⟩]
      ∧ (handleCore Trigger.disclaimer_yes noFails alert false true false db
          now).modal_store = false
      ∧ (handleCore Trigger.disclaimer_yes noFails alert false true false db
          now).disclaimer_store = false
      ∧ (handleCore Trigger.disclaimer_yes noFails alert false true false db
          now).caution_store = true)
    ∧ ((handleCore Trigger.disclaimer_no noFails alert false true false db
        now).db.user_control = db.user_control ++ [(now, "ON")]
      ∧ (handleCore Trigger.disclaimer_no noFails alert false true false db
          now).db.processed_events = db.processed_events ++ [⟨e, "ON", now⟩]
      ∧ (handleCore Trigger.disclaimer_no noFails alert false true false db
          now).modal_store = false
      ∧ (handleCore Trigger.disclaimer_no noFails alert false true false db
          now).disclaimer_store = false
      ∧ (handleCore Trigger.disclaimer_no noFails alert false true false db
          now).caution_store = false)
    ∧ ((handleCore Trigger.caution_close noFails alert false false true db
        now).db.user_control = db.user_control
      ∧ (handleCore Trigger.caution_close noFails alert false false true db
          now).db.processed_events = db.processed_events
      ∧ (handleCore Trigger.caution_close noFails alert false false true db
          now).modal_store = false
      ∧ (handleCore Trigger.caution_close noFails alert false false true db
          now).disclaimer_store = false
      ∧ (handleCore Trigger.caution_close noFails alert false false true db
          now).caution_store = false) := by
  refine ⟨?_, ?_, ?_, ?_, ?_⟩
  · obtain ⟨hpe, huc, -, -⟩ := reminderTickPhase_nontick_db Trigger.enable_fan_filterstate
      (by simp) noFails alert true false false db now
    simp [handleCore, clickPhase, mkCallbackResult, noFails_filter_fail,
      noFails_reminder_fail, noFails_processed_fail, hfs, truthy, he,
      update_user_control_decision, record_event_as_processed, hpe, huc]
  · obtain ⟨hpe, huc, -, -⟩ := reminderTickPhase_nontick_db Trigger.keep_fan_off_filterstate
      (by simp) noFails alert true false false db now
    simp [handleCore, clickPhase, mkCallbackResult, noFails_filter_fail,
      noFails_reminder_fail, noFails_processed_fail, hfs, truthy, he,
      update_user_control_decision, record_event_as_processed, hpe, huc]
  · obtain ⟨hpe, huc, -, -⟩ := reminderTickPhase_nontick_db Trigger.disclaimer_yes
      (by simp) noFails alert false true false db now
    simp [handleCore, clickPhase, mkCallbackResult, noFails_filter_fail,
      noFails_reminder_fail, noFails_processed_fail, hfs, truthy, he,
      update_user_control_decision, record_event_as_processed, hpe, huc]
  · obtain ⟨hpe, huc, -, -⟩ := reminderTickPhase_nontick_db Trigger.disclaimer_no
      (by simp) noFails alert false true false db now
    simp [handleCore, clickPhase, mkCallbackResult, noFails_filter_fail,
      noFails_reminder_fail, noFails_processed_fail, hfs, truthy, he,
      update_user_control_decision, record_event_as_processed, hpe, huc]
  · obtain ⟨hpe, huc, -, -⟩ := reminderTickPhase_nontick_db Trigger.caution_close
      (by simp) noFails alert false false true db now
    simp [handleCore, clickPhase, mkCallbackResult, noFails_filter_fail,
      noFails_reminder_fail, noFails_processed_fail, hfs, truthy, he,
      update_user_control_decision, record_event_as_processed, hpe, huc]

/-- Witness for C5 on the store `{filter_state = [(5, "ON")]}` with one
`SHOWING_MODAL` row, acting at time 2. -/
theorem c5_decision_round_trip_witness :
    get_last_filter_state false ⟨[(5, "ON")], [], [⟨5, "SHOWING_MODAL", 0⟩], [], 1⟩
        = (some 5, "ON")
    ∧ (5 : Nat) ≠ 0
    ∧ (handleCore Trigger.enable_fan_filterstate noFails true true false false
        ⟨[(5, "ON")], [], [⟨5, "SHOWING_MODAL", 0⟩], [], 1⟩ 2).db.user_control
        = [(2, "ON")]
    ∧ (handleCore Trigger.keep_fan_off_filterstate noFails true true false false
        ⟨[(5, "ON")], [], [⟨5, "SHOWING_MODAL", 0⟩], [], 1⟩ 2).disclaimer_store = true :=
  ⟨by decide, by decide,
    (c5_decision_round_trip ⟨[(5, "ON")], [], [⟨5, "SHOWING_MODAL", 0⟩], [], 1⟩ 2 true 5 "ON"
      (by decide) (by decide)).1.1,
    (c5_decision_round_trip ⟨[(5, "ON")], [], [⟨5, "SHOWING_MODAL", 0⟩], [], 1⟩ 2 true 5 "ON"
      (by decide) (by decide)).2.1.2.2.2.1⟩

theorem get_due_reminder_false_eq (db : DB) (now : Nat) :
    get_due_reminder false db now
      = match db.reminders.find? (fun r => decide (r.reminder_time ≤ now)) with
        | none => (none, none)
        | some r => (some r.event_id, some r.reminder_id) := rfl

/-- C6: defer-20 taken in PROMPTING on event `e` at time `now` (no due
reminder pending) creates exactly one reminder `(e, now+20, "20 minutes")`,
appends exactly one `(e, REMIND_20)` row, closes all dialogs, and — when the
new reminder is the only one — a later tick before `now+20` changes nothing:
the event does not auto-prompt again until the reminder fires.  Defer-60
behaves identically with 60 minutes, label `"1 hour"` and `REMIND_60`. -/
theorem c6_deferral_scheduling (db : DB) (now : Nat) (alert : Bool) (e : Nat) (s : String)
    (hfs : get_last_filter_state false db = (some e, s)) (he : e ≠ 0)
    (hnr : get_due_reminder false db now = (none, none)) :
    ((handleCore Trigger.remind_me_filterstate noFails alert true false false db now).db
        = record_event_as_processed (add_reminder db e 20 "20 minutes" now) e "REMIND_20" now
      ∧ (handleCore Trigger.remind_me_filterstate noFails alert true false false db
          now).db.reminders
          = db.reminders ++ [⟨db.next_reminder_id, e, now + 20, "20 minutes"⟩]
      ∧ (handleCore Trigger.remind_me_filterstate noFails alert true false false db
          now).db.processed_events = db.processed_events ++ [⟨e, "REMIND_20", now⟩]
      ∧ (handleCore Trigger.remind_me_filterstate noFails alert true false false db
          now).modal_store = false
      ∧ (handleCore Trigger.remind_me_filterstate noFails alert true false false db
          now).disclaimer_store = false
      ∧ (handleCore Trigger.remind_me_filterstate noFails alert true false false db
          now).caution_store = false)
    ∧ ((handleCore Trigger.remind_me_hour_filterstate noFails alert true false false db now).db
        = record_event_as_processed (add_reminder db e 60 "1 hour" now) e "REMIND_60" now
      ∧ (handleCore Trigger.remind_me_hour_filterstate noFails alert true false false db
          now).db.reminders
          = db.reminders ++ [⟨db.next_reminder_id, e, now + 60, "1 hour"⟩]
      ∧ (handleCore Trigger.remind_me_hour_filterstate noFails alert true false false db
          now).db.processed_events = db.processed_events ++ [⟨e, "REMIND_60", now⟩]
      ∧ (handleCore Trigger.remind_me_hour_filterstate noFails alert true false false db
          now).modal_store = false
      ∧ (handleCore Trigger.remind_me_hour_filterstate noFails alert true false false db
          now).disclaimer_store = false
      ∧ (handleCore Trigger.remind_me_hour_filterstate noFails alert true false false db
          now).caution_store = false)
    ∧ (db.reminders = [] → ∀ t2 : Nat, t2 < now + 20 → ∀ a2 : Bool,
        handleCore Trigger.interval_component noFails a2 false false false
            (record_event_as_processed (add_reminder db e 20 "20 minutes" now) e
              "REMIND_20" now) t2
          = ⟨false, a2, "Monitoring filter state...", false, false, false, false, false,
              record_event_as_processed (add_reminder db e 20 "20 minutes" now) e
                "REMIND_20" now⟩) := by
  have hp20 := reminderTickPhase_idle_nontick Trigger.remind_me_filterstate (by simp)
    noFails alert true false false db now hnr
  have hp60 := reminderTickPhase_idle_nontick Trigger.remind_me_hour_filterstate (by simp)
    noFails alert true false false db now hnr
  refine ⟨?_, ?_, ?_⟩
  · simp [handleCore, hp20, clickPhase, mkCallbackResult, noFails_filter_fail, hfs, truthy,
      he, record_event_as_processed, add_reminder]
  · simp [handleCore, hp60, clickPhase, mkCallbackResult, noFails_filter_fail, hfs, truthy,
      he, record_event_as_processed, add_reminder]
  · intro hrem t2 ht2 a2
    have hfs2 : get_last_filter_state false
        (record_event_as_processed (add_reminder db e 20 "20 minutes" now) e "REMIND_20" now)
        = (some e, s) := hfs
    have hdue : get_due_reminder false
        (record_event_as_processed (add_reminder db e 20 "20 minutes" now) e "REMIND_20" now)
        t2 = (none, none) := by
      rw [get_due_reminder_false_eq]
      have hr : (record_event_as_processed (add_reminder db e 20 "20 minutes" now) e
          "REMIND_20" now).reminders
          = [⟨db.next_reminder_id, e, now + 20, "20 minutes"⟩] := by
        simp [record_event_as_processed, add_reminder, hrem]
      rw [hr]
      simp [List.find?, show ¬(now + 20 ≤ t2) from by omega]
    have hiep : is_event_processed false
        (record_event_as_processed (add_reminder db e 20 "20 minutes" now) e "REMIND_20" now)
        e = true := by
      simp [is_event_processed, record_event_as_processed, add_reminder]
    rw [handleCore_interval]
    unfold reminderTickPhase
    simp [noFails_filter_fail, noFails_reminder_fail, noFails_processed_fail, hdue, hfs2,
      hiep, truthy, mkCallbackResult]

/-- The store for the C6 witness: event 7 is ON and was shown. -/
def db6 : DB := ⟨[(7, "ON")], [], [⟨7, "SHOWING_MODAL", 0⟩], [], 1⟩

/-- Witness for C6: defer-20 on event 7 at time 100 creates the reminder
`(7, 120, "20 minutes")`, and a tick at time 110 on the resulting store
changes nothing. -/
theorem c6_deferral_scheduling_witness :
    get_last_filter_state false db6 = (some 7, "ON")
    ∧ (7 : Nat) ≠ 0
    ∧ get_due_reminder false db6 100 = (none, none)
    ∧ (handleCore Trigger.remind_me_filterstate noFails true true false false db6
        100).db.reminders = [⟨1, 7, 120, "20 minutes"⟩]
    ∧ db6.reminders = []
    ∧ (110 : Nat) < 100 + 20
    ∧ handleCore Trigger.interval_component noFails true false false false
        (record_event_as_processed (add_reminder db6 7 20 "20 minutes" 100) 7 "REMIND_20"
          100) 110
        = ⟨false, true, "Monitoring filter state...", false, false, false, false, false,
            record_event_as_processed (add_reminder db6 7 20 "20 minutes" 100) 7 "REMIND_20"
              100⟩ :=
  ⟨by decide, by decide, by decide,
    (c6_deferral_scheduling db6 100 true 7 "ON" (by decide) (by decide) (by decide)).1.2.1,
    by decide, by decide,
    (c6_deferral_scheduling db6 100 true 7 "ON" (by decide) (by decide) (by decide)).2.2
      (by decide) 110 (by decide) true⟩

/-- C10: the due-reminder check runs on every invocation, whatever the
trigger and whatever dialogs are open: whenever the due reminder's event id
(nonzero) equals the latest condition's id and the condition is ON, the
first phase sets the modal open, closes the other dialogs and deletes the
reminder before the trigger-specific branch runs; in particular a tick
arriving while the disclaimer or caution dialog is open closes it and
reopens the main modal. -/
theorem c10_reminder_check_on_every_trigger (db : DB) (now : Nat) (de rid : Nat)
    (hdr : get_due_reminder false db now = (some de, some rid)) (hde : de ≠ 0)
    (hfs : get_last_filter_state false db = (some de, "ON")) :
    (∀ (trigger : Trigger) (a m d c : Bool),
      reminderTickPhase trigger noFails a m d c db now =
        ⟨true, false, false, true, "Reminder due. Showing modal.", remove_reminder db rid⟩)
    ∧ (∀ (trigger : Trigger) (a m d c : Bool),
      handleCore trigger noFails a m d c db now =
        mkCallbackResult (clickPhase trigger
          ⟨true, false, false, true, "Reminder due. Showing modal.", remove_reminder db rid⟩
          (some de) now))
    ∧ (∀ (a m d c : Bool),
      (handleCore Trigger.interval_component noFails a m d c db now).modal_store = true
      ∧ (handleCore Trigger.interval_component noFails a m d c db now).disclaimer_store
          = false
      ∧ (handleCore Trigger.interval_component noFails a m d c db now).caution_store = false
      ∧ (handleCore Trigger.interval_component noFails a m d c db now).db
          = remove_reminder db rid) := by
  have key : ∀ (trigger : Trigger) (a m d c : Bool),
      reminderTickPhase trigger noFails a m d c db now =
        ⟨true, false, false, true, "Reminder due. Showing modal.", remove_reminder db rid⟩ := by
    intro trigger a m d c
    unfold reminderTickPhase
    simp [noFails_filter_fail, noFails_reminder_fail, hdr, hfs, truthy, hde]
  refine ⟨key, ?_, ?_⟩
  · intro trigger a m d c
    simp [handleCore, key, noFails_filter_fail, hfs]
  · intro a m d c
    rw [handleCore_interval, key Trigger.interval_component a m d c]
    exact ⟨rfl, rfl, rfl, rfl⟩

/-- The store for the C10 witness: event 9 is ON, its reminder (id 4) is
due. -/
def db10 : DB := ⟨[(9, "ON")], [], [⟨9, "REMIND_20", 0⟩], [⟨4, 9, 50, "20 minutes"⟩], 5⟩

/-- Witness for C10: a tick at time 60 with the caution dialog open closes
it, reopens the main modal and deletes reminder 4. -/
theorem c10_reminder_check_on_every_trigger_witness :
    get_due_reminder false db10 60 = (some 9, some 4)
    ∧ (9 : Nat) ≠ 0
    ∧ get_last_filter_state false db10 = (some 9, "ON")
    ∧ (handleCore Trigger.interval_component noFails true false false true db10
        60).modal_store = true
    ∧ (handleCore Trigger.interval_component noFails true false false true db10 60).db
        = remove_reminder db10 4 :=
  ⟨by decide, by decide, by decide,
    ((c10_reminder_check_on_every_trigger db10 60 9 4 (by decide) (by decide)
      (by decide)).2.2 true false false true).1,
    ((c10_reminder_check_on_every_trigger db10 60 9 4 (by decide) (by decide)
      (by decide)).2.2 true false false true).2.2.2⟩

/-- Number of `(e, SHOWING_MODAL)` rows in the ledger: each one marks a
firing of the tick-triggered auto-prompt transition for event `e`. -/
def countShowing (e : Nat) (db : DB) : Nat :=
  db.processed_events.countP
    (fun p => decide (p.event_id = e) && decide (p.action = "SHOWING_MODAL"))

theorem countShowing_record (db : DB) (e e2 : Nat) (a : String) (now : Nat) :
    countShowing e (record_event_as_processed db e2 a now)
      = countShowing e db + (if e2 = e ∧ a = "SHOWING_MODAL" then 1 else 0) := by
  unfold countShowing record_event_as_processed
  simp [List.countP_append, List.countP_cons, Bool.and_eq_true, decide_eq_true_eq]

theorem countShowing_add_reminder (db : DB) (e e2 dm : Nat) (ty : String) (now : Nat) :
    countShowing e (add_reminder db e2 dm ty now) = countShowing e db := rfl

theorem countShowing_remove_reminder (db : DB) (e i : Nat) :
    countShowing e (remove_reminder db i) = countShowing e db := rfl

theorem countShowing_update (db : DB) (e : Nat) (st : String) (now : Nat) :
    countShowing e (update_user_control_decision db st now) = countShowing e db := rfl

theorem iep_record (db : DB) (e e2 : Nat) (a : String) (now : Nat) :
    is_event_processed false (record_event_as_processed db e2 a now) e
      = (is_event_processed false db e || decide (e2 = e)) := by
  simp [is_event_processed, record_event_as_processed]

theorem iep_add_reminder (db : DB) (e e2 dm : Nat) (ty : String) (now : Nat) :
    is_event_processed false (add_reminder db e2 dm ty now) e
      = is_event_processed false db e := rfl

theorem iep_remove_reminder (db : DB) (e i : Nat) :
    is_event_processed false (remove_reminder db i) e = is_event_processed false db e := rfl

theorem iep_update (db : DB) (e : Nat) (st : String) (now : Nat) :
    is_event_processed false (update_user_control_decision db st now) e
      = is_event_processed false db e := rfl

theorem iep_of_countShowing_pos (e : Nat) (db : DB) (h : 0 < countShowing e db) :
    is_event_processed false db e = true := by
  unfold countShowing at h
  rw [List.countP_pos_iff] at h
  obtain ⟨p, hp, hpe⟩ := h
  simp only [Bool.and_eq_true, decide_eq_true_eq] at hpe
  show db.processed_events.any (fun p => decide (p.event_id = e)) = true
  rw [List.any_eq_true]
  exact ⟨p, hp, by simp [hpe.1]⟩

theorem act_ON_ne : ("ON" : String) ≠ "SHOWING_MODAL" := by decide

theorem act_OFF_ne : ("OFF" : String) ≠ "SHOWING_MODAL" := by decide

theorem act_R20_ne : ("REMIND_20" : String) ≠ "SHOWING_MODAL" := by decide

theorem act_R60_ne : ("REMIND_60" : String) ≠ "SHOWING_MODAL" := by decide

/-- The button branches never write a `SHOWING_MODAL` row. -/
theorem clickPhase_countShowing (trigger : Trigger) (p : PhaseState) (lid : Option Nat)
    (now : Nat) (e : Nat) :
    countShowing e (clickPhase trigger p lid now).db = countShowing e p.db := by
  cases trigger <;> simp only [clickPhase] <;>
    first
      | rfl
      | (split_ifs <;>
          simp [countShowing_record, countShowing_update, countShowing_add_reminder,
            act_ON_ne, act_OFF_ne, act_R20_ne, act_R60_ne])

/-- The button branches never remove ledger rows: a processed event stays
processed. -/
theorem clickPhase_iep (trigger : Trigger) (p : PhaseState) (lid : Option Nat) (now : Nat)
    (e : Nat) (h : is_event_processed false p.db e = true) :
    is_event_processed false (clickPhase trigger p lid now).db e = true := by
  cases trigger <;> simp only [clickPhase] <;>
    first
      | exact h
      | (split_ifs <;> simp [iep_record, iep_update, iep_add_reminder, h])

/-- One invocation appends at most one `(e, SHOWING_MODAL)` row, and appends
none at all once event `e` is processed (given the processed-events read
succeeds). -/
theorem stepRun_processed_step (s : SessionState) (st : Step) (e : Nat)
    (hf : st.fails.processed_fail = false) :
    (is_event_processed false s.db e = true →
        is_event_processed false (stepRun s st).db e = true
        ∧ countShowing e (stepRun s st).db = countShowing e s.db)
    ∧ countShowing e (stepRun s st).db ≤ countShowing e s.db + 1 := by
  obtain ⟨r, trigger, fails, now⟩ := st
  obtain ⟨a, m, d, c, db⟩ := s
  simp only at hf
  cases r with
  | true => exact ⟨fun h => ⟨h, rfl⟩, Nat.le_succ _⟩
  | false =>
      have hdb : (stepRun ⟨a, m, d, c, db⟩ ⟨false, trigger, fails, now⟩).db
          = (clickPhase trigger (reminderTickPhase trigger fails a m d c db now)
              (get_last_filter_state fails.filter_fail db).1 now).db := rfl
      rcases reminderTickPhase_cases trigger fails a m d c db now with
        hc | ⟨hc, htr, hiepf⟩ | hc
      · rw [hdb, hc]
        constructor
        · intro h
          exact ⟨clickPhase_iep trigger _ _ now e h, by rw [clickPhase_countShowing]; rfl⟩
        · rw [clickPhase_countShowing]
          exact Nat.le_succ _
      · subst htr
        rw [hf] at hiepf
        have hdb2 : (stepRun ⟨a, m, d, c, db⟩ ⟨false, Trigger.interval_component, fails,
            now⟩).db
            = (reminderTickPhase Trigger.interval_component fails a m d c db now).db := rfl
        rw [hdb2, hc]
        constructor
        · intro h
          have hne : (get_last_filter_state fails.filter_fail db).1.getD 0 ≠ e := by
            intro hEq
            rw [hEq, h] at hiepf
            cases hiepf
          constructor
          · show is_event_processed false
                (record_event_as_processed db
                  ((get_last_filter_state fails.filter_fail db).1.getD 0) "SHOWING_MODAL"
                  now) e = true
            rw [iep_record, h]
            rfl
          · show countShowing e
                (record_event_as_processed db
                  ((get_last_filter_state fails.filter_fail db).1.getD 0) "SHOWING_MODAL"
                  now) = countShowing e db
            rw [countShowing_record]
            simp [hne]
        · show countShowing e
              (record_event_as_processed db
                ((get_last_filter_state fails.filter_fail db).1.getD 0) "SHOWING_MODAL"
                now) ≤ countShowing e db + 1
          rw [countShowing_record]
          split_ifs <;> omega
      · rw [hdb, hc]
        constructor
        · intro h
          exact ⟨clickPhase_iep trigger _ _ now e h, by rw [clickPhase_countShowing]⟩
        · rw [clickPhase_countShowing]
          exact Nat.le_succ _

/-- Trace induction for C3: once processed, no invocation adds a
`SHOWING_MODAL` row for the event, and the count of such rows never exceeds
one if it starts at most one. -/
theorem runTrace_no_new_showing : ∀ (l : List Step) (s : SessionState) (e : Nat),
    (∀ st ∈ l, st.fails.processed_fail = false) →
    (is_event_processed false s.db e = true →
        is_event_processed false (runTrace s l).db e = true
        ∧ countShowing e (runTrace s l).db = countShowing e s.db)
    ∧ (countShowing e s.db ≤ 1 → countShowing e (runTrace s l).db ≤ 1) := by
  intro l
  induction l with
  | nil => exact fun s e _ => ⟨fun hp => ⟨hp, rfl⟩, fun h1 => h1⟩
  | cons st rest ih =>
      intro s e hall
      have hst : st.fails.processed_fail = false := hall st (List.mem_cons_self st rest)
      have hrest : ∀ x ∈ rest, x.fails.processed_fail = false :=
        fun x hx => hall x (List.mem_cons_of_mem st hx)
      have hstep := stepRun_processed_step s st e hst
      have ihs := ih (stepRun s st) e hrest
      constructor
      · intro hp
        obtain ⟨hp', hc'⟩ := hstep.1 hp
        obtain ⟨hp'', hc''⟩ := ihs.1 hp'
        exact ⟨hp'', by rw [show runTrace s (st :: rest) = runTrace (stepRun s st) rest
          from rfl, hc'', hc']⟩
      · intro h1
        apply ihs.2
        rcases Nat.lt_or_ge (countShowing e s.db) 1 with h0 | hge
        · have := hstep.2
          omega
        · have hc1 : countShowing e s.db = 1 := by omega
          have hp : is_event_processed false s.db e = true :=
            iep_of_countShowing_pos e s.db (by omega)
          have := (hstep.1 hp).2
          omega

/-- C3: for a fixed event id, across any sequence of invocations whose
processed-events reads succeed, the tick-triggered auto-prompt (the
transition that appends `SHOWING_MODAL`) fires at most once: once any
ProcessedAction row exists for the event no invocation appends another
`SHOWING_MODAL` row for it, and starting with no such row the final ledger
holds at most one. -/
theorem c3_tick_prompt_at_most_once (steps : List Step) (s : SessionState) (e : Nat)
    (hf : ∀ st ∈ steps, st.fails.processed_fail = false) :
    (is_event_processed false s.db e = true →
        countShowing e (runTrace s steps).db = countShowing e s.db)
    ∧ (countShowing e s.db = 0 → countShowing e (runTrace s steps).db ≤ 1) := by
  have h := runTrace_no_new_showing steps s e hf
  exact ⟨fun hp => (h.1 hp).2, fun h0 => h.2 (by omega)⟩

/-- The session for the C3 witness: event 5 ON and already shown. -/
def sC3 : SessionState := ⟨true, false, false, false, ⟨[(5, "ON")], [], [⟨5, "SHOWING_MODAL", 0⟩], [], 1⟩⟩

/-- Witness for C3: two further ticks on an already-shown event leave the
`SHOWING_MODAL` count unchanged. -/
theorem c3_tick_prompt_at_most_once_witness :
    (∀ st ∈ ([⟨false, Trigger.interval_component, noFails, 1⟩,
        ⟨false, Trigger.interval_component, noFails, 2⟩] : List Step),
      st.fails.processed_fail = false)
    ∧ is_event_processed false sC3.db 5 = true
    ∧ countShowing 5 (runTrace sC3 [⟨false, Trigger.interval_component, noFails, 1⟩,
        ⟨false, Trigger.interval_component, noFails, 2⟩]).db = countShowing 5 sC3.db :=
  ⟨by decide, by decide,
    (c3_tick_prompt_at_most_once [⟨false, Trigger.interval_component, noFails, 1⟩,
        ⟨false, Trigger.interval_component, noFails, 2⟩] sC3 5 (by decide)).1 (by decide)⟩
